import Mathlib

/-!
Verification of the Market Data Aggregator core (`market_data_aggregator/app`).

Python strings are modelled as `List Char` (`PyStr`); `str.upper`, `str.strip`,
`str.split`, `in`, `endswith` are modelled by executable functions below.
`str.upper` is modelled on the ASCII range (Python and `Char.toUpper` agree
there); `str.strip` strips the six ASCII whitespace characters Python strips.
Wall-clock instants are `Nat` seconds; each operation that reads the clock
takes `now` as an argument.
-/

/-- Python `str`, modelled as a list of characters. -/
abbrev PyStr := List Char

/-- Coerce a Lean string literal to the `PyStr` model. -/
def pystr (s : String) : PyStr := s.data

/-- The whitespace characters stripped by Python `str.strip` (ASCII fragment):
space, tab, newline, carriage return, vertical tab, form feed. -/
def pyIsWs (c : Char) : Bool :=
  c.toNat = 32 || c.toNat = 9 || c.toNat = 10 || c.toNat = 13 ||
    c.toNat = 11 || c.toNat = 12

/-- Python `str.strip()`: remove leading and trailing whitespace. -/
def pyStrip (l : PyStr) : PyStr :=
  List.rdropWhile pyIsWs (List.dropWhile pyIsWs l)

/-- Python `str.upper()` on the ASCII range (`Char.toUpper` maps `a`-`z` to
`A`-`Z` and fixes everything else, exactly as Python does on ASCII). -/
def pyUpper (l : PyStr) : PyStr := l.map Char.toUpper

/-- Python `sub in s` for strings: `sub` occurs contiguously in `s`. -/
def pyContains (l sub : PyStr) : Bool :=
  l.tails.any fun t => sub.isPrefixOf t

/-- Python `s.endswith(suffix)`. -/
def pyEndsWith (l suf : PyStr) : Bool := suf.isSuffixOf l

/-- Python `s.split(sep)` for a one-character separator: `"".split(',') = [""]`,
`"a,,b".split(',') = ["a", "", "b"]`. -/
def pySplitOn (sep : Char) : PyStr → List PyStr
  | [] => [[]]
  | c :: rest =>
    if c = sep then [] :: pySplitOn sep rest
    else
      match pySplitOn sep rest with
      | [] => [[c]]
      | h :: t => (c :: h) :: t

/-!
Symbol normalisation, one function per provider adapter
(`providers/base.py`, `coingecko_provider.py`, `coinmarketcap_provider.py`,
`yfinance_provider.py`, `alpha_vantage_provider.py`).
-/

/-- Asset classes (`api/schemas.py`, `AssetType`). -/
inductive AssetType where
  | stocks
  | crypto
  | forex
deriving DecidableEq

/-- Provider identities (`api/schemas.py`, `DataProvider`). -/
inductive DataProvider where
  | yfinance
  | finnhub
  | coingecko
  | coinmarketcap
  | alpha_vantage
deriving DecidableEq

/-- `BaseDataProvider._normalize_symbol` (base.py lines 301-314): the default
normalisation `symbol.upper().strip()` — note Python applies `.upper()` first,
then `.strip()`. -/
def baseNormalizeSymbol (s : PyStr) (_t : AssetType) : PyStr :=
  pyStrip (pyUpper s)

/-- `CoinGeckoProvider._normalize_symbol` (coingecko_provider.py lines 50-62):
upper+strip, then drop one of the suffixes `-USD`, `USD`, `-USDT`. -/
def coingeckoNormalizeSymbol (s : PyStr) (_t : AssetType) : PyStr :=
  let u := pyStrip (pyUpper s)
  if pyEndsWith u (pystr "-USD") then u.take (u.length - 4)
  else if pyEndsWith u (pystr "USD") then u.take (u.length - 3)
  else if pyEndsWith u (pystr "-USDT") then u.take (u.length - 5)
  else u

/-- `CoinMarketCapProvider._normalize_symbol` (coinmarketcap_provider.py lines
66-78): identical suffix stripping to CoinGecko's. -/
def coinmarketcapNormalizeSymbol (s : PyStr) (_t : AssetType) : PyStr :=
  let u := pyStrip (pyUpper s)
  if pyEndsWith u (pystr "-USD") then u.take (u.length - 4)
  else if pyEndsWith u (pystr "USD") then u.take (u.length - 3)
  else if pyEndsWith u (pystr "-USDT") then u.take (u.length - 5)
  else u

/-- `YFinanceProvider._normalize_symbol` (yfinance_provider.py lines 51-66).
For forex, `base, quote = symbol.split('/')` raises `ValueError` unless the
split yields exactly two parts; that failure is modelled as `none`. -/
def yfinanceNormalizeSymbol (s : PyStr) (t : AssetType) : Option PyStr :=
  let u := pyStrip (pyUpper s)
  if t = AssetType.forex then
    if '/' ∈ u then
      match pySplitOn '/' u with
      | [b, q] => some (b ++ q ++ pystr "=X")
      | _ => none
    else if pyEndsWith u (pystr "=X") then some u
    else if u.length = 6 then some (u ++ pystr "=X")
    else some u
  else some u

/-- `AlphaVantageProvider._normalize_symbol` (alpha_vantage_provider.py lines
59-71): forex pairs stay in `BASE/QUOTE` form; a six-letter pair gains a `/`. -/
def alphaVantageNormalizeSymbol (s : PyStr) (t : AssetType) : PyStr :=
  let u := pyStrip (pyUpper s)
  if t = AssetType.forex then
    if '/' ∈ u then u
    else if u.length = 6 then u.take 3 ++ '/' :: u.drop 3
    else u
  else u

/-!
Error taxonomy (`providers/base.py` lines 18-41). `RateLimitError`,
`AuthenticationError` and `DataNotFoundError` are subclasses of
`ProviderError`; `otherError` stands for any exception outside that
hierarchy.
-/

/-- The exception taxonomy of `providers/base.py`, plus `otherError` for any
exception that is not a `ProviderError`. -/
inductive PyErr where
  | providerError
  | rateLimitError
  | authenticationError
  | dataNotFoundError
  | otherError
deriving DecidableEq

/-- Python `isinstance(e, ProviderError)`: true for `ProviderError` and all of
its subclasses (`RateLimitError`, `AuthenticationError`, `DataNotFoundError`
all inherit from `ProviderError` in base.py). -/
def isProviderError : PyErr → Bool
  | .otherError => false
  | _ => true

/-- Python `str(e)`; the orchestrator only stores it as a circuit-breaker
message and never reads it back, so the model collapses it. -/
def pyErrMessage (_ : PyErr) : PyStr := []

/-!
Cache and circuit-breaker store (`services/cache.py`). The Redis store is
modelled as a per-provider optional entry; `corrupt` stands for a stored value
whose JSON decode or `trip_time` parse raises, and `reachable = false` models
a backend whose every access raises. The Redis-side TTL expiry
(`circuit_breaker_timeout + 60`) is an independent removal mechanism not
needed by the claims and is not modelled.
-/

/-- The JSON document written by `trip_circuit` (cache.py lines 119-124). -/
structure CircuitEntry where
  is_open : Bool
  trip_time : Nat
  error_message : PyStr
  failure_count : Nat
deriving DecidableEq

/-- A raw stored circuit-breaker value: either a well-formed entry or one on
which `json.loads` / `datetime.fromisoformat` raises. -/
inductive StoredCircuit where
  | valid (e : CircuitEntry)
  | corrupt
deriving DecidableEq

/-- The cache-service state visible to the circuit-breaker operations:
`circuit_breaker:<provider>` keys, `failures:<provider>` counters, and whether
the backend is reachable (every Redis call raising when it is not). -/
structure CacheState where
  circuits : DataProvider → Option StoredCircuit
  failures : DataProvider → Nat
  reachable : Bool

/-- `CacheService.close_circuit` (cache.py lines 145-160): delete the entry and
reset the failure count; any backend exception is swallowed, leaving the state
unchanged. -/
def closeCircuit (p : DataProvider) (st : CacheState) : CacheState :=
  if st.reachable then
    { circuits := fun q => if q = p then none else st.circuits q
      failures := fun q => if q = p then 0 else st.failures q
      reachable := st.reachable }
  else st

/-- `CacheService.trip_circuit` (cache.py lines 115-143): increment the failure
counter and store `{is_open: true, trip_time: now, ...}`; any backend
exception is swallowed, leaving the state unchanged. -/
def tripCircuit (p : DataProvider) (msg : PyStr) (now : Nat) (st : CacheState) :
    CacheState :=
  if st.reachable then
    { circuits := fun q =>
        if q = p then some (.valid ⟨true, now, msg, st.failures p + 1⟩)
        else st.circuits q
      failures := fun q => if q = p then st.failures p + 1 else st.failures q
      reachable := st.reachable }
  else st

/-- `CacheService.is_circuit_open` (cache.py lines 83-113). Returns the Boolean
answer and the possibly updated state (an expired open entry is removed via
`close_circuit`). Any exception — unreachable backend, malformed JSON,
unparsable `trip_time` — is caught and yields `false` with the state
unchanged. -/
def isCircuitOpen (timeout : Nat) (p : DataProvider) (now : Nat)
    (st : CacheState) : Bool × CacheState :=
  if st.reachable = false then (false, st)
  else
    match st.circuits p with
    | none => (false, st)
    | some .corrupt => (false, st)
    | some (.valid e) =>
      if e.is_open then
        if e.trip_time + timeout < now then (false, closeCircuit p st)
        else (true, st)
      else (false, st)

/-!
Provider routing configuration (`core/config.py`, `ProviderConfig`) and the
per-adapter `supports_asset_type` declarations.
-/

/-- `ProviderConfig.PRIMARY_PROVIDERS` (config.py lines 107-111). -/
def PRIMARY_PROVIDERS : AssetType → DataProvider
  | .stocks => .yfinance
  | .crypto => .coingecko
  | .forex => .alpha_vantage

/-- `ProviderConfig.FALLBACK_PROVIDERS` (config.py lines 114-118). -/
def FALLBACK_PROVIDERS : AssetType → DataProvider
  | .stocks => .finnhub
  | .crypto => .coinmarketcap
  | .forex => .yfinance

/-- `supports_asset_type` of each provider adapter. -/
def supportsAssetType : DataProvider → AssetType → Bool
  | .yfinance, t => t = AssetType.stocks || t = AssetType.forex
  | .finnhub, t => t = AssetType.stocks
  | .coingecko, t => t = AssetType.crypto
  | .coinmarketcap, t => t = AssetType.crypto
  | .alpha_vantage, t => t = AssetType.forex || t = AssetType.stocks

/-!
Aggregator orchestrator (`services/data_aggregator.py`). Provider calls are
oracles supplied through `AggEnv`; quote, asset and news payloads are opaque
type parameters because the orchestrator never inspects them.
-/

/-- The orchestrator's environment: which providers initialised successfully
(`self._providers`), and the outcome each provider call would produce. -/
structure AggEnv (Q A N : Type) where
  registered : DataProvider → Bool
  quotesResult : DataProvider → List PyStr → Except PyErr (List (PyStr × Q))
  assetsResult : DataProvider → AssetType → Except PyErr (List A)
  finnhubNewsResult : PyStr → Except PyErr (List N)
  yfinanceNewsResult : PyStr → Except PyErr (List N)

/-- `DataAggregatorService._fetch_quotes_for_asset_type` (data_aggregator.py
lines 332-402). Returns the quotes handed back to the caller (the caller
merges and writes them; an empty result writes nothing for this class) and
the updated cache state. When the primary's circuit is open the code switches
to the fallback purely on registration, re-binding `provider_enum`, so a
`ProviderError` trips the circuit of the provider actually used. -/
def fetchQuotesForAssetType {Q A N : Type} (env : AggEnv Q A N)
    (timeout now : Nat) (t : AssetType) (symbols : List PyStr)
    (st : CacheState) : List (PyStr × Q) × CacheState :=
  if symbols.isEmpty then ([], st)
  else
    let primary := PRIMARY_PROVIDERS t
    if env.registered primary = false then ([], st)
    else
      let r1 := isCircuitOpen timeout primary now st
      let sel : Option DataProvider :=
        if r1.1 then
          if env.registered (FALLBACK_PROVIDERS t) then some (FALLBACK_PROVIDERS t)
          else none
        else some primary
      match sel with
      | none => ([], r1.2)
      | some p =>
        match env.quotesResult p symbols with
        | .ok qs => (qs, r1.2)
        | .error e =>
          if isProviderError e then ([], tripCircuit p (pyErrMessage e) now r1.2)
          else ([], r1.2)

/-- `DataAggregatorService._update_asset_list_for_type` (data_aggregator.py
lines 178-257). Returns the asset list written to the cache, if any. Note:
`provider_enum` is computed from the primary at line 200 and never reassigned,
so the `ProviderError` handler at line 251 trips the primary's circuit even
when the fallback made the call. -/
def updateAssetListForType {Q A N : Type} (env : AggEnv Q A N)
    (timeout now : Nat) (t : AssetType) (st : CacheState) :
    Option (List A) × CacheState :=
  let primary := PRIMARY_PROVIDERS t
  if env.registered primary = false then (none, st)
  else if supportsAssetType primary t = false then (none, st)
  else
    let r1 := isCircuitOpen timeout primary now st
    let sel : Option DataProvider :=
      if r1.1 then
        if env.registered (FALLBACK_PROVIDERS t) then
          if supportsAssetType (FALLBACK_PROVIDERS t) t then some (FALLBACK_PROVIDERS t)
          else none
        else none
      else some primary
    match sel with
    | none => (none, r1.2)
    | some p =>
      match env.assetsResult p t with
      | .ok assets => (if assets.isEmpty then none else some assets, r1.2)
      | .error e =>
        if isProviderError e then (none, tripCircuit primary (pyErrMessage e) now r1.2)
        else (none, r1.2)

/-- `cache_service.set_company_news(...)` as called by the news loop.
`CacheService` (services/cache.py lines 20-403) defines no `set_company_news`
method, so in the source this call raises `AttributeError` before writing
anything; the model therefore makes the call fail unconditionally. -/
def setCompanyNewsCall {N : Type} (_news : PyStr → Option (List N))
    (_sym : PyStr) (_articles : List N) :
    Except Unit (PyStr → Option (List N)) :=
  .error ()

/-- Outcome of one step of `_fetch_company_news_for_symbol`: the news cache,
the circuit-breaker state, and whether the function returned. -/
structure NewsStepResult (N : Type) where
  news : PyStr → Option (List N)
  st : CacheState
  done : Bool

/-- Step A of `_fetch_company_news_for_symbol` (data_aggregator.py lines
529-556): try Finnhub; on a non-empty result the `set_company_news` call
raises (missing method), the handler at line 550 trips Finnhub's circuit, and
control falls through to the Yahoo step. -/
def companyNewsFinnhubStep {Q A N : Type} (env : AggEnv Q A N)
    (timeout now : Nat) (sym : PyStr) (news : PyStr → Option (List N))
    (st : CacheState) : NewsStepResult N :=
  if env.registered .finnhub then
    let r1 := isCircuitOpen timeout .finnhub now st
    if r1.1 then ⟨news, r1.2, false⟩
    else
      match env.finnhubNewsResult sym with
      | .ok articles =>
        if articles.isEmpty then ⟨news, r1.2, false⟩
        else
          match setCompanyNewsCall news sym articles with
          | .ok news' => ⟨news', r1.2, true⟩
          | .error _ =>
            ⟨news, tripCircuit .finnhub (pystr "") now r1.2, false⟩
      | .error e =>
        ⟨news, tripCircuit .finnhub (pyErrMessage e) now r1.2, false⟩
  else ⟨news, st, false⟩

/-- Step C/D of `_fetch_company_news_for_symbol` (data_aggregator.py lines
558-587): fall back to Yahoo; a non-empty result again hits the missing
`set_company_news` method, whose `AttributeError` is caught at line 581 and
only logged, so the news cache is never written. -/
def companyNewsYfinanceStep {Q A N : Type} (env : AggEnv Q A N) (sym : PyStr)
    (news : PyStr → Option (List N)) (st : CacheState) : NewsStepResult N :=
  if env.registered .yfinance then
    match env.yfinanceNewsResult sym with
    | .ok articles =>
      if articles.isEmpty then ⟨news, st, true⟩
      else
        match setCompanyNewsCall news sym articles with
        | .ok newsW => ⟨newsW, st, true⟩
        | .error _ => ⟨news, st, true⟩
    | .error _ => ⟨news, st, true⟩
  else ⟨news, st, true⟩

/-- `DataAggregatorService._fetch_company_news_for_symbol` (data_aggregator.py
lines 526-593): Finnhub first, Yahoo as fallback. -/
def fetchCompanyNewsForSymbol {Q A N : Type} (env : AggEnv Q A N)
    (timeout now : Nat) (sym : PyStr) (news : PyStr → Option (List N))
    (st : CacheState) : (PyStr → Option (List N)) × CacheState :=
  let a := companyNewsFinnhubStep env timeout now sym news st
  if a.done then (a.news, a.st)
  else
    let b := companyNewsYfinanceStep env sym a.news a.st
    (b.news, b.st)

/-!
Quote-loop symbol bucketing (`_group_symbols_by_asset_type`, data_aggregator.py
lines 315-330).
-/

/-- The crypto ticker list of line 323. -/
def CRYPTO_TICKERS : List PyStr :=
  [pystr "BTC", pystr "ETH", pystr "ADA", pystr "DOT", pystr "XRP",
   pystr "LTC", pystr "DOGE"]

/-- The per-symbol classification inside `_group_symbols_by_asset_type`:
forex on a raw `/` or `=X` suffix, else crypto when the uppercased symbol
contains one of the crypto tickers as a substring, else stocks. -/
def assetTypeOfSymbol (s : PyStr) : AssetType :=
  if '/' ∈ s ∨ pyEndsWith s (pystr "=X") then .forex
  else if CRYPTO_TICKERS.any (fun c => pyContains (pyUpper s) c) then .crypto
  else .stocks

/-- `_group_symbols_by_asset_type`: the defaultdict of buckets, modelled as a
function from asset type to the bucketed symbols in input order. -/
def groupSymbolsByAssetType (symbols : List PyStr) : AssetType → List PyStr :=
  symbols.foldl
    (fun g s t => if t = assetTypeOfSymbol s then g t ++ [s] else g t)
    (fun _ => [])

/-- Modelled from the spec: the claim's reading of "matches the known
crypto-ticker prefix set" as a prefix test on the uppercased symbol, stated
for comparison with the source's substring test. -/
def specCryptoTickerMatch (s : PyStr) : Bool :=
  CRYPTO_TICKERS.any fun c => c.isPrefixOf (pyUpper s)

/-!
Retry loop of `BaseDataProvider._make_request` (providers/base.py lines
95-214), modelled over an oracle giving the outcome of each HTTP attempt.
-/

/-- Outcome of one HTTP attempt: a timeout (`httpx.TimeoutException`), a
transport error (`httpx.HTTPError` from the network), or a response with a
status code, a `Retry-After` value and a flag telling whether the body parses
as JSON. -/
inductive HttpOutcome where
  | timeout
  | netError
  | response (status : Nat) (retryAfter : Nat) (jsonOk : Bool)
deriving DecidableEq

/-- What `_make_request` does overall: return parsed data, or raise one of the
taxonomy errors. -/
inductive ReqResult where
  | ok
  | rateLimitError
  | authenticationError
  | providerError
deriving DecidableEq

/-- Observable trace of `_make_request`: final outcome, number of HTTP
attempts actually made, and the sleeps performed between attempts, in
seconds. -/
structure ReqTrace where
  result : ReqResult
  attemptsMade : Nat
  sleeps : List Nat
deriving DecidableEq

/-- The `for attempt in range(retry_count)` loop of `_make_request`. `fuel` is
the number of loop iterations left, `attempt` the current index. A 429 sleeps
`min(Retry-After, 60)` and retries; 401 raises `AuthenticationError`
immediately; any other 4xx/5xx raises in `raise_for_status`, is caught by the
`except httpx.HTTPError` clause and is retried with a `2 ** attempt` backoff,
as timeouts and transport errors are; a JSON parse failure raises
`ProviderError` without retry. -/
def makeRequestAux (oracle : Nat → HttpOutcome) :
    Nat → Nat → List Nat → ReqTrace
  | 0, attempt, sleeps => ⟨.providerError, attempt, sleeps⟩
  | fuel + 1, attempt, sleeps =>
    match oracle attempt with
    | .timeout =>
      if fuel = 0 then ⟨.providerError, attempt + 1, sleeps⟩
      else makeRequestAux oracle fuel (attempt + 1) (sleeps ++ [2 ^ attempt])
    | .netError =>
      if fuel = 0 then ⟨.providerError, attempt + 1, sleeps⟩
      else makeRequestAux oracle fuel (attempt + 1) (sleeps ++ [2 ^ attempt])
    | .response status retryAfter jsonOk =>
      if status = 429 then
        if fuel = 0 then ⟨.rateLimitError, attempt + 1, sleeps⟩
        else makeRequestAux oracle fuel (attempt + 1) (sleeps ++ [min retryAfter 60])
      else if status = 401 then ⟨.authenticationError, attempt + 1, sleeps⟩
      else if 400 ≤ status && status ≤ 599 then
        if fuel = 0 then ⟨.providerError, attempt + 1, sleeps⟩
        else makeRequestAux oracle fuel (attempt + 1) (sleeps ++ [2 ^ attempt])
      else if jsonOk then ⟨.ok, attempt + 1, sleeps⟩
      else ⟨.providerError, attempt + 1, sleeps⟩

/-- `_make_request` with its default `retry_count = 3`. -/
def makeRequest (oracle : Nat → HttpOutcome) : ReqTrace :=
  makeRequestAux oracle 3 0 []

/-- The outcomes after which `_make_request` starts another attempt: timeout,
transport error, 429, and any other 4xx/5xx except 401. -/
def retryableOutcome : HttpOutcome → Bool
  | .timeout => true
  | .netError => true
  | .response status _ _ =>
    status = 429 || (400 ≤ status && status ≤ 599 && status ≠ 401)

/-!
`GET /v1/quotes` (`api/endpoints.py`, `get_quotes`, lines 123-200) over the
quote cache (`CacheService.get_quotes_from_cache`, cache.py lines 210-251).
-/

/-- The body of a successful `/v1/quotes` response (`QuoteResponse` in
api/schemas.py); the server timestamp carries no information about the cache
and is omitted. -/
structure QuoteResponseModel (Q : Type) where
  quotes : List Q
  total : Nat
  cache_hit : Bool
deriving DecidableEq

/-- The symbol parsing of `get_quotes` (endpoints.py line 148):
`[s.strip().upper() for s in symbols.split(',') if s.strip()]`. -/
def parseSymbols (s : PyStr) : List PyStr :=
  ((pySplitOn ',' s).filter fun t => !(pyStrip t).isEmpty).map
    fun t => pyUpper (pyStrip t)

/-- `CacheService.get_quotes_from_cache`: a pipelined multi-get building a
Python dict keyed by the requested symbols; a repeated symbol re-assigns the
same value and keeps its first position, which over a point-wise cache is the
same as keeping the first hit. `cache s = none` covers both a missing key and
an entry whose deserialisation fails (both are skipped). -/
def gqcStep {Q : Type} (cache : PyStr → Option Q) (acc : List (PyStr × Q))
    (s : PyStr) : List (PyStr × Q) :=

  match cache s with
  | none => acc
  | some q => if acc.any (fun kv => kv.1 = s) then acc else acc ++ [(s, q)]

/-- The dict built by `get_quotes_from_cache` over the requested symbols, in
insertion order. -/
def getQuotesFromCacheModel {Q : Type} (cache : PyStr → Option Q)
    (symbols : List PyStr) : List (PyStr × Q) :=
  symbols.foldl (gqcStep cache) []

/-- `get_quotes` (endpoints.py lines 123-200): the two 400 guards collapse the
blank-input check (line 142) and the empty-parse check (line 150), a list of
more than 100 parsed symbols is a 400, and otherwise the response is built
from the cache dict with `total = len(quotes)` and
`cache_hit = len(quotes) > 0`. -/
def getQuotesEndpoint {Q : Type} (cache : PyStr → Option Q) (symbols : PyStr) :
    Except Nat (QuoteResponseModel Q) :=
  if (pyStrip symbols).isEmpty then .error 400
  else if (parseSymbols symbols).isEmpty then .error 400
  else if 100 < (parseSymbols symbols).length then .error 400
  else
    let qd := getQuotesFromCacheModel cache (parseSymbols symbols)
    .ok ⟨qd.map Prod.snd, qd.length, !qd.isEmpty⟩


/-!
Concrete fixtures used to instantiate the theorems below on closed inputs.
-/

/-- A circuit entry as `trip_circuit` writes it at time 0. -/
def exCircuitEntry : CircuitEntry := ⟨true, 0, [], 1⟩

/-- A cache state with no circuit entries and a reachable backend. -/
def exStateClosed : CacheState := ⟨fun _ => none, fun _ => 0, true⟩

/-- A cache state whose backend raises on every access. -/
def exStateUnreachable : CacheState := ⟨fun _ => none, fun _ => 0, false⟩

/-- A cache state with a corrupt (undecodable) entry for the given provider. -/
def exStateCorrupt (p : DataProvider) : CacheState :=
  ⟨fun q => if q = p then some .corrupt else none, fun _ => 0, true⟩

/-- A cache state with open circuits (tripped at time 0) for the listed
providers. -/
def exStateOpen (ps : List DataProvider) : CacheState :=
  ⟨fun q => if q ∈ ps then some (.valid exCircuitEntry) else none,
   fun _ => 0, true⟩

/-- Environment for the quote loop in which Finnhub answers and every other
provider raises `ProviderError`. -/
def exEnvQuotes : AggEnv Nat Nat Nat :=
  ⟨fun _ => true,
   fun p _ => if p = DataProvider.finnhub then .ok [(pystr "AAPL", 1)]
              else .error PyErr.providerError,
   fun _ _ => .ok [],
   fun _ => .ok [],
   fun _ => .ok []⟩

/-- Environment for the asset-list loop in which Finnhub raises
`ProviderError` on `get_asset_list` and everything else succeeds. -/
def exEnvAssets : AggEnv Nat Nat Nat :=
  ⟨fun _ => true,
   fun _ _ => .ok [],
   fun p _ => if p = DataProvider.finnhub then .error PyErr.providerError
              else .ok [7],
   fun _ => .ok [],
   fun _ => .ok []⟩

/-- Environment in which every quote call raises `RateLimitError`. -/
def exEnvRateLimited : AggEnv Nat Nat Nat :=
  ⟨fun _ => true,
   fun _ _ => .error PyErr.rateLimitError,
   fun _ _ => .ok [],
   fun _ => .ok [],
   fun _ => .ok []⟩

/-- Environment for the news loop: Finnhub `company_news` returns an empty
list, Yahoo returns one article. -/
def exEnvNews : AggEnv Nat Nat Nat :=
  ⟨fun _ => true,
   fun _ _ => .ok [],
   fun _ _ => .ok [],
   fun _ => .ok [],
   fun _ => .ok [7]⟩

/-- Environment in which Finnhub raises `ProviderError` on both quote and
asset-list calls while every other provider succeeds. -/
def exEnvFallbackErr : AggEnv Nat Nat Nat :=
  ⟨fun _ => true,
   fun p _ => if p = DataProvider.finnhub then .error PyErr.providerError
              else .ok [(pystr "AAPL", 1)],
   fun p _ => if p = DataProvider.finnhub then .error PyErr.providerError
              else .ok [7],
   fun _ => .ok [],
   fun _ => .ok []⟩

/-- An empty news cache. -/
def exNewsEmpty : PyStr → Option (List Nat) := fun _ => none

/-- A quote cache holding only `AAPL`. -/
def exQuoteCache : PyStr → Option Nat :=
  fun s => if s = pystr "AAPL" then some 1 else none

/-- A completely empty quote cache. -/
def exQuoteCacheEmpty : PyStr → Option Nat := fun _ => none

/-- An upstream that answers 404 to every attempt. -/
def exOracle404 : Nat → HttpOutcome := fun _ => HttpOutcome.response 404 0 true

/-- An upstream that times out on every attempt. -/
def exOracleTimeout : Nat → HttpOutcome := fun _ => HttpOutcome.timeout

/-!
General lemmas about the string model.
-/

theorem charOfNat_toNat {n : Nat} (h : n < 55296) : (Char.ofNat n).toNat = n := by
  rw [Char.ofNat, dif_pos (Or.inl h)]
  rfl

theorem toUpper_toNat (c : Char) :
    (Char.toUpper c).toNat =
      if 97 ≤ c.toNat ∧ c.toNat ≤ 122 then c.toNat - 32 else c.toNat := by
  by_cases h : 97 ≤ c.toNat ∧ c.toNat ≤ 122
  · have h1 : Char.toUpper c = Char.ofNat (c.toNat - 32) := by
      unfold Char.toUpper
      exact if_pos h
    rw [h1, if_pos h, charOfNat_toNat (by omega)]
  · have h1 : Char.toUpper c = c := by
      unfold Char.toUpper
      exact if_neg h
    rw [h1, if_neg h]

theorem char_toNat_inj {a b : Char} (h : a.toNat = b.toNat) : a = b :=
  Char.ext (UInt32.toNat.inj h)

theorem toUpper_toUpper (c : Char) :
    Char.toUpper (Char.toUpper c) = Char.toUpper c := by
  apply char_toNat_inj
  have hx := toUpper_toNat c
  rw [toUpper_toNat, hx]
  by_cases h : 97 ≤ c.toNat ∧ c.toNat ≤ 122
  · rw [if_pos h, if_neg (by omega)]
  · rw [if_neg h, if_neg h]

theorem pyIsWs_iff (c : Char) :
    pyIsWs c = true ↔
      c.toNat = 32 ∨ c.toNat = 9 ∨ c.toNat = 10 ∨ c.toNat = 13 ∨
        c.toNat = 11 ∨ c.toNat = 12 := by
  simp [pyIsWs, or_assoc]

theorem pyIsWs_toUpper (c : Char) : pyIsWs (Char.toUpper c) = pyIsWs c := by
  rw [Bool.eq_iff_iff, pyIsWs_iff, pyIsWs_iff, toUpper_toNat]
  by_cases h : 97 ≤ c.toNat ∧ c.toNat ≤ 122
  · rw [if_pos h]
    omega
  · rw [if_neg h]

theorem pyUpper_pyUpper (l : PyStr) : pyUpper (pyUpper l) = pyUpper l := by
  unfold pyUpper
  rw [List.map_map]
  exact List.map_congr_left fun a _ => toUpper_toUpper a

theorem dropWhile_map_comm {α β : Type} (p : β → Bool) (f : α → β)
    (l : List α) :
    List.dropWhile p (l.map f) = (List.dropWhile (fun a => p (f a)) l).map f := by
  induction l with
  | nil => rfl
  | cons a t ih =>
    simp only [List.map_cons, List.dropWhile_cons]
    by_cases h : p (f a)
    · simp [h, ih]
    · simp [h]

theorem rdropWhile_map_comm {α β : Type} (p : β → Bool) (f : α → β)
    (l : List α) :
    List.rdropWhile p (l.map f) =
      (List.rdropWhile (fun a => p (f a)) l).map f := by
  unfold List.rdropWhile
  rw [← List.map_reverse, dropWhile_map_comm, List.map_reverse]

theorem pyStrip_pyUpper (l : PyStr) : pyStrip (pyUpper l) = pyUpper (pyStrip l) := by
  have hp : (fun a => pyIsWs (Char.toUpper a)) = pyIsWs := funext pyIsWs_toUpper
  unfold pyStrip pyUpper
  rw [dropWhile_map_comm, hp, rdropWhile_map_comm, hp]

theorem dropWhile_rdropWhile_self {α : Type} (p : α → Bool) (l : List α)
    (h : List.dropWhile p l = l) :
    List.dropWhile p (List.rdropWhile p l) = List.rdropWhile p l := by
  rw [List.dropWhile_eq_self_iff]
  intro hl
  have hpre : List.rdropWhile p l <+: l := List.rdropWhile_prefix p l
  have hlen : 0 < l.length := lt_of_lt_of_le hl hpre.length_le
  have hg : (List.rdropWhile p l).get ⟨0, hl⟩ = l.get ⟨0, hlen⟩ := by
    simpa [List.get_eq_getElem] using hpre.getElem hl
  rw [hg]
  exact List.dropWhile_eq_self_iff.mp h hlen

theorem pyStrip_pyStrip (l : PyStr) : pyStrip (pyStrip l) = pyStrip l := by
  unfold pyStrip
  rw [dropWhile_rdropWhile_self pyIsWs (List.dropWhile pyIsWs l)
    (List.dropWhile_idempotent pyIsWs l)]
  exact List.rdropWhile_idempotent pyIsWs (List.dropWhile pyIsWs l)

theorem pyStrip_sublist (l : PyStr) : List.Sublist (pyStrip l) l :=
  ((List.rdropWhile_prefix pyIsWs (List.dropWhile pyIsWs l)).sublist).trans
    (List.dropWhile_sublist pyIsWs)

theorem pyUpper_pyStrip_pyUpper (s : PyStr) :
    pyUpper (pyStrip (pyUpper s)) = pyStrip (pyUpper s) := by
  rw [← pyStrip_pyUpper, pyUpper_pyUpper]

theorem normFormFix (s : PyStr) :
    pyStrip (pyUpper (pyStrip (pyUpper s))) = pyStrip (pyUpper s) := by
  rw [pyUpper_pyStrip_pyUpper, pyStrip_pyStrip]

theorem pyUpper_of_normFix {u : PyStr} (h : pyStrip (pyUpper u) = u) :
    pyUpper u = u := by
  have hmem : ∀ c ∈ u, Char.toUpper c = c := by
    intro c hc
    have hc1 : c ∈ pyStrip (pyUpper u) := by rw [h]; exact hc
    have hc2 : c ∈ pyUpper u := (pyStrip_sublist (pyUpper u)).subset hc1
    obtain ⟨a, _, rfl⟩ := List.mem_map.mp hc2
    exact toUpper_toUpper a
  exact (List.map_congr_left hmem).trans (List.map_id u)

theorem pyStrip_of_normFix {u : PyStr} (h : pyStrip (pyUpper u) = u) :
    pyStrip u = u := by
  conv_lhs => rw [← h, pyStrip_pyStrip, h]

theorem av_on_normFix (r : PyStr) (h : pyStrip (pyUpper r) = r)
    (t : AssetType) :
    alphaVantageNormalizeSymbol r t =
      if t = AssetType.forex then
        if '/' ∈ r then r
        else if r.length = 6 then r.take 3 ++ '/' :: r.drop 3
        else r
      else r := by
  unfold alphaVantageNormalizeSymbol
  show (if t = AssetType.forex then
      if '/' ∈ pyStrip (pyUpper r) then pyStrip (pyUpper r)
      else if (pyStrip (pyUpper r)).length = 6 then
        (pyStrip (pyUpper r)).take 3 ++ '/' :: (pyStrip (pyUpper r)).drop 3
      else pyStrip (pyUpper r)
    else pyStrip (pyUpper r)) = _
  rw [h]

theorem sandwich_normFix (u : PyStr) (hfix : pyStrip (pyUpper u) = u)
    (hlen : u.length = 6) :
    pyStrip (pyUpper (u.take 3 ++ '/' :: u.drop 3)) =
      u.take 3 ++ '/' :: u.drop 3 ∧ '/' ∈ u.take 3 ++ '/' :: u.drop 3 := by
  have hup : pyUpper u = u := pyUpper_of_normFix hfix
  have hst : pyStrip u = u := pyStrip_of_normFix hfix
  clear hfix
  rcases u with _ | ⟨a, u⟩; · simp at hlen
  rcases u with _ | ⟨b, u⟩; · simp at hlen
  rcases u with _ | ⟨c, u⟩; · simp at hlen
  rcases u with _ | ⟨d, u⟩; · simp at hlen
  rcases u with _ | ⟨e, u⟩; · simp at hlen
  rcases u with _ | ⟨f, u⟩; · simp at hlen
  rcases u with _ | ⟨g, u⟩
  case cons => simp at hlen
  simp only [pyUpper, List.map_cons, List.map_nil, List.cons.injEq,
    and_true] at hup
  obtain ⟨ha, hb, hc, hd, he, hf⟩ := hup
  have hwa : pyIsWs a = false := by
    by_contra hcon
    rw [Bool.not_eq_false] at hcon
    have hstep : pyStrip [a, b, c, d, e, f] =
        List.rdropWhile pyIsWs (List.dropWhile pyIsWs [b, c, d, e, f]) := by
      simp [pyStrip, List.dropWhile_cons, hcon]
    rw [hstep] at hst
    have h1 := congrArg List.length hst
    have h2 : (List.rdropWhile pyIsWs
        (List.dropWhile pyIsWs [b, c, d, e, f])).length ≤ 5 :=
      le_trans (List.rdropWhile_prefix _ _).length_le
        (le_trans (List.dropWhile_sublist _).length_le (by simp))
    simp at h1
    omega
  have hdwu : List.dropWhile pyIsWs [a, b, c, d, e, f] = [a, b, c, d, e, f] := by
    simp [List.dropWhile_cons, hwa]
  have hwf : pyIsWs f = false := by
    by_contra hcon
    rw [Bool.not_eq_false] at hcon
    have hstep : pyStrip [a, b, c, d, e, f] =
        (List.dropWhile pyIsWs [e, d, c, b, a]).reverse := by
      simp [pyStrip, hdwu, List.rdropWhile, List.dropWhile_cons, hcon]
    rw [hstep] at hst
    have h1 := congrArg List.length hst
    have h2 : (List.dropWhile pyIsWs [e, d, c, b, a]).length ≤ 5 :=
      le_trans (List.dropWhile_sublist _).length_le (by simp)
    simp at h1
    omega
  refine ⟨?_, by simp⟩
  show pyStrip (pyUpper [a, b, c, '/', d, e, f]) = [a, b, c, '/', d, e, f]
  have hslash : Char.toUpper '/' = '/' := by decide
  have hupv : pyUpper [a, b, c, '/', d, e, f] = [a, b, c, '/', d, e, f] := by
    simp [pyUpper, ha, hb, hc, hd, he, hf, hslash]
  rw [hupv]
  have hdwv : List.dropWhile pyIsWs [a, b, c, '/', d, e, f] =
      [a, b, c, '/', d, e, f] := by
    simp [List.dropWhile_cons, hwa]
  show List.rdropWhile pyIsWs (List.dropWhile pyIsWs [a, b, c, '/', d, e, f]) =
    [a, b, c, '/', d, e, f]
  rw [hdwv]
  simp [List.rdropWhile, List.dropWhile_cons, hwf]

theorem av_unfold (s : PyStr) (t : AssetType) :
    alphaVantageNormalizeSymbol s t =
      if t = AssetType.forex then
        if '/' ∈ pyStrip (pyUpper s) then pyStrip (pyUpper s)
        else if (pyStrip (pyUpper s)).length = 6 then
          (pyStrip (pyUpper s)).take 3 ++ '/' :: (pyStrip (pyUpper s)).drop 3
        else pyStrip (pyUpper s)
      else pyStrip (pyUpper s) := rfl

theorem av_result_normFix (s : PyStr) (t : AssetType) :
    pyStrip (pyUpper (alphaVantageNormalizeSymbol s t)) =
      alphaVantageNormalizeSymbol s t := by
  have hfix : pyStrip (pyUpper (pyStrip (pyUpper s))) = pyStrip (pyUpper s) :=
    normFormFix s
  rw [av_unfold s t]
  by_cases ht : t = AssetType.forex
  · rw [if_pos ht]
    by_cases h1 : '/' ∈ pyStrip (pyUpper s)
    · rw [if_pos h1]; exact hfix
    · rw [if_neg h1]
      by_cases h2 : (pyStrip (pyUpper s)).length = 6
      · rw [if_pos h2]
        exact (sandwich_normFix (pyStrip (pyUpper s)) hfix h2).1
      · rw [if_neg h2]; exact hfix
  · rw [if_neg ht]; exact hfix

theorem alphaVantage_norm_idem (s : PyStr) (t : AssetType) :
    alphaVantageNormalizeSymbol (alphaVantageNormalizeSymbol s t) t =
      alphaVantageNormalizeSymbol s t := by
  have hr := av_result_normFix s t
  rw [av_on_normFix (alphaVantageNormalizeSymbol s t) hr t]
  by_cases ht : t = AssetType.forex
  case neg => rw [if_neg ht]
  case pos =>
    rw [if_pos ht, av_unfold s t, if_pos ht]
    by_cases h1 : '/' ∈ pyStrip (pyUpper s)
    · rw [if_pos h1, if_pos h1]
    · rw [if_neg h1]
      by_cases h2 : (pyStrip (pyUpper s)).length = 6
      · rw [if_pos h2]
        have hmem := (sandwich_normFix (pyStrip (pyUpper s)) (normFormFix s) h2).2
        rw [if_pos hmem]
      · rw [if_neg h2, if_neg h1, if_neg h2]

theorem base_norm_idem (s : PyStr) (t : AssetType) :
    baseNormalizeSymbol (baseNormalizeSymbol s t) t = baseNormalizeSymbol s t := by
  unfold baseNormalizeSymbol
  exact normFormFix s

/-- C9 counterexample: symbol normalisation is not idempotent for every
adapter. CoinGecko and CoinMarketCap renormalise `USDUSD` from `USD` down to
the empty string, and Yahoo/Finance maps `/ a` to ` A=X` whose renormalisation
strips the blank, giving `A=X`. -/
theorem c9_counterexample :
    (coingeckoNormalizeSymbol
        (coingeckoNormalizeSymbol (pystr "USDUSD") AssetType.crypto)
        AssetType.crypto ≠
      coingeckoNormalizeSymbol (pystr "USDUSD") AssetType.crypto) ∧
    (coinmarketcapNormalizeSymbol
        (coinmarketcapNormalizeSymbol (pystr "USDUSD") AssetType.crypto)
        AssetType.crypto ≠
      coinmarketcapNormalizeSymbol (pystr "USDUSD") AssetType.crypto) ∧
    yfinanceNormalizeSymbol (pystr "/ a") AssetType.forex =
      some (pystr " A=X") ∧
    yfinanceNormalizeSymbol (pystr " A=X") AssetType.forex =
      some (pystr "A=X") ∧
    pystr " A=X" ≠ pystr "A=X" := by decide

/-- C9 (amended): symbol normalisation is idempotent for the adapters that use
the inherited default normalisation (`BaseDataProvider._normalize_symbol`,
hence Finnhub) and for Alpha Vantage, for every symbol and every asset type;
the CoinGecko, CoinMarketCap and Yahoo/Finance overrides are not idempotent
(see the counterexample). -/
theorem c9_normalize_idempotent (s : PyStr) (t : AssetType) :
    baseNormalizeSymbol (baseNormalizeSymbol s t) t = baseNormalizeSymbol s t ∧
    alphaVantageNormalizeSymbol (alphaVantageNormalizeSymbol s t) t =
      alphaVantageNormalizeSymbol s t :=
  ⟨base_norm_idem s t, alphaVantage_norm_idem s t⟩

/-- C3: immediately after `trip_circuit(p)`, `is_circuit_open(p)` is true;
immediately after `close_circuit(p)`, it is false; and an entry whose
`trip_time` lies more than `circuit_breaker_timeout` seconds in the past reads
false and is removed from the store. Entries are only ever written by
`trip_circuit` and hence carry `is_open = true`; the expiry part assumes that
shape. All three parts assume the cache backend is reachable. -/
theorem c3_circuit_trip_close_expiry (timeout now now2 : Nat)
    (p : DataProvider) (st : CacheState) (msg : PyStr) (e : CircuitEntry)
    (hreach : st.reachable = true) :
    (isCircuitOpen timeout p now (tripCircuit p msg now st)).1 = true ∧
    (isCircuitOpen timeout p now2 (closeCircuit p st)).1 = false ∧
    (st.circuits p = some (.valid e) → e.is_open = true →
      e.trip_time + timeout < now →
      (isCircuitOpen timeout p now st).1 = false ∧
      (isCircuitOpen timeout p now st).2.circuits p = none) := by
  refine ⟨?_, ?_, ?_⟩
  · simp [tripCircuit, isCircuitOpen, hreach, closeCircuit]
  · simp [closeCircuit, isCircuitOpen, hreach]
  · intro h1 h2 h3
    simp [isCircuitOpen, hreach, h1, h2, h3, closeCircuit]

/-- C3 witness: instantiated on a reachable store holding the entry tripped at
time 0, with `timeout = 300` observed at `now = 301`. -/
theorem c3_witness :
    (exStateOpen [DataProvider.finnhub]).reachable = true ∧
    ((isCircuitOpen 300 DataProvider.finnhub 0
        (tripCircuit DataProvider.finnhub [] 0
          (exStateOpen [DataProvider.finnhub]))).1 = true ∧
     (isCircuitOpen 300 DataProvider.finnhub 0
        (closeCircuit DataProvider.finnhub
          (exStateOpen [DataProvider.finnhub]))).1 = false ∧
     ((exStateOpen [DataProvider.finnhub]).circuits DataProvider.finnhub =
        some (.valid exCircuitEntry) → exCircuitEntry.is_open = true →
      exCircuitEntry.trip_time + 300 < 301 →
      (isCircuitOpen 300 DataProvider.finnhub 301
          (exStateOpen [DataProvider.finnhub])).1 = false ∧
      (isCircuitOpen 300 DataProvider.finnhub 301
          (exStateOpen [DataProvider.finnhub])).2.circuits
          DataProvider.finnhub = none)) :=
  ⟨by decide,
   (c3_circuit_trip_close_expiry 300 301 0 DataProvider.finnhub
      (exStateOpen [DataProvider.finnhub]) [] exCircuitEntry (by decide)).1,
   (c3_circuit_trip_close_expiry 300 301 0 DataProvider.finnhub
      (exStateOpen [DataProvider.finnhub]) [] exCircuitEntry (by decide)).2.1,
   (c3_circuit_trip_close_expiry 300 301 0 DataProvider.finnhub
      (exStateOpen [DataProvider.finnhub]) [] exCircuitEntry (by decide)).2.2⟩

/-- C10: if the cache backend raises during `is_circuit_open` — store
unreachable, or the stored entry undecodable (malformed JSON or unparsable
trip_time) — the call returns false and the state is unchanged: a circuit is
treated as closed on cache failure. -/
theorem c10_circuit_closed_on_cache_failure (timeout now : Nat)
    (p : DataProvider) (st : CacheState)
    (h : st.reachable = false ∨ st.circuits p = some .corrupt) :
    (isCircuitOpen timeout p now st).1 = false ∧
    (isCircuitOpen timeout p now st).2 = st := by
  rcases h with h | h
  · simp [isCircuitOpen, h]
  · rcases hr : st.reachable with _ | _
    · simp [isCircuitOpen, hr]
    · simp [isCircuitOpen, hr, h]

/-- C10 witness: instantiated on the unreachable store and on a store with a
corrupt entry for Finnhub. -/
theorem c10_witness :
    (exStateUnreachable.reachable = false ∨
      exStateUnreachable.circuits DataProvider.finnhub = some .corrupt) ∧
    (isCircuitOpen 300 DataProvider.finnhub 5 exStateUnreachable).1 = false ∧
    (isCircuitOpen 300 DataProvider.coingecko 5
      (exStateCorrupt DataProvider.coingecko)).1 = false :=
  ⟨Or.inl (by decide),
   (c10_circuit_closed_on_cache_failure 300 5 DataProvider.finnhub
      exStateUnreachable (Or.inl (by decide))).1,
   (c10_circuit_closed_on_cache_failure 300 5 DataProvider.coingecko
      (exStateCorrupt DataProvider.coingecko) (Or.inr (by decide))).1⟩

/-- C1 counterexample: in the quote-fetch loop, with the primary's and the
fallback's circuits both open, the orchestrator still calls the fallback and
returns its quotes, instead of skipping the class and writing nothing. -/
theorem c1_counterexample :
    (isCircuitOpen 300 (PRIMARY_PROVIDERS AssetType.stocks) 0
        (exStateOpen [DataProvider.yfinance, DataProvider.finnhub])).1 = true ∧
    (isCircuitOpen 300 (FALLBACK_PROVIDERS AssetType.stocks) 0
        (exStateOpen [DataProvider.yfinance, DataProvider.finnhub])).1 = true ∧
    (fetchQuotesForAssetType exEnvQuotes 300 0 AssetType.stocks [pystr "AAPL"]
        (exStateOpen [DataProvider.yfinance, DataProvider.finnhub])).1 =
      [(pystr "AAPL", 1)] ∧
    (fetchQuotesForAssetType exEnvQuotes 300 0 AssetType.stocks [pystr "AAPL"]
        (exStateOpen [DataProvider.yfinance, DataProvider.finnhub])).1 ≠
      [] := by decide

/-- C1 (amended): in the quote-fetch loop, when the primary's circuit is open
the orchestrator uses the fallback whenever it is registered, without
checking the fallback's asset-class support or its circuit state; only when
no fallback is registered is the class skipped with no quotes returned. -/
theorem c1_fallback_selection {Q A N : Type} (env : AggEnv Q A N)
    (timeout now : Nat) (t : AssetType) (symbols : List PyStr)
    (st : CacheState) (hsym : symbols ≠ [])
    (hreg : env.registered (PRIMARY_PROVIDERS t) = true)
    (hopen : (isCircuitOpen timeout (PRIMARY_PROVIDERS t) now st).1 = true) :
    (env.registered (FALLBACK_PROVIDERS t) = true →
      fetchQuotesForAssetType env timeout now t symbols st =
        match env.quotesResult (FALLBACK_PROVIDERS t) symbols with
        | .ok qs => (qs, (isCircuitOpen timeout (PRIMARY_PROVIDERS t) now st).2)
        | .error e =>
          if isProviderError e then
            ([], tripCircuit (FALLBACK_PROVIDERS t) (pyErrMessage e) now
              (isCircuitOpen timeout (PRIMARY_PROVIDERS t) now st).2)
          else ([], (isCircuitOpen timeout (PRIMARY_PROVIDERS t) now st).2)) ∧
    (env.registered (FALLBACK_PROVIDERS t) = false →
      fetchQuotesForAssetType env timeout now t symbols st =
        ([], (isCircuitOpen timeout (PRIMARY_PROVIDERS t) now st).2)) := by
  have hsym' : symbols.isEmpty = false := by
    cases symbols
    · exact absurd rfl hsym
    · rfl
  constructor <;> intro hfb <;>
    simp only [fetchQuotesForAssetType, hsym', hreg, hopen, hfb, if_true,
      if_false, Bool.false_eq_true, Bool.true_eq_false, ite_false, ite_true]

/-- C1 witness: the amended claim instantiated with the primary's circuit
open and the fallback registered; the fallback's quotes are returned. -/
theorem c1_witness :
    ([pystr "AAPL"] ≠ ([] : List PyStr)) ∧
    exEnvQuotes.registered (PRIMARY_PROVIDERS AssetType.stocks) = true ∧
    (isCircuitOpen 300 (PRIMARY_PROVIDERS AssetType.stocks) 0
        (exStateOpen [DataProvider.yfinance])).1 = true ∧
    (fetchQuotesForAssetType exEnvQuotes 300 0 AssetType.stocks [pystr "AAPL"]
        (exStateOpen [DataProvider.yfinance])).1 = [(pystr "AAPL", 1)] :=
  ⟨by decide, by decide, by decide,
   congrArg Prod.fst
     ((c1_fallback_selection exEnvQuotes 300 0 AssetType.stocks [pystr "AAPL"]
        (exStateOpen [DataProvider.yfinance]) (by decide) (by decide)
        (by decide)).1 (by decide))⟩

/-- C2 counterexample: in the asset-list loop, with the primary's (Yahoo)
circuit open and the fallback (Finnhub) registered, supporting stocks and
raising `ProviderError`, the circuit that gets tripped is the primary's:
afterwards Finnhub still has no circuit entry while Yahoo's failure counter
was incremented and its entry rewritten at the new trip time. -/
theorem c2_counterexample :
    exEnvAssets.assetsResult DataProvider.finnhub AssetType.stocks =
      .error PyErr.providerError ∧
    (updateAssetListForType exEnvAssets 300 5 AssetType.stocks
        (exStateOpen [DataProvider.yfinance])).2.circuits
        DataProvider.finnhub = none ∧
    (updateAssetListForType exEnvAssets 300 5 AssetType.stocks
        (exStateOpen [DataProvider.yfinance])).2.failures
        DataProvider.yfinance = 1 ∧
    (updateAssetListForType exEnvAssets 300 5 AssetType.stocks
        (exStateOpen [DataProvider.yfinance])).2.circuits
        DataProvider.yfinance = some (.valid ⟨true, 5, [], 1⟩) := by
  refine ⟨rfl, by decide, by decide, by decide⟩

/-- C2 (amended): on `ProviderError` with the fallback selected, the
quote-fetch loop trips the circuit of the provider actually used (the
fallback), while the asset-list loop trips the primary's circuit even though
the fallback made the call. -/
theorem c2_trip_targets {Q A N : Type} (env : AggEnv Q A N)
    (timeout now : Nat) (t : AssetType) (symbols : List PyStr)
    (st : CacheState) (e e2 : PyErr)
    (hsym : symbols ≠ [])
    (hreg : env.registered (PRIMARY_PROVIDERS t) = true)
    (hfb : env.registered (FALLBACK_PROVIDERS t) = true)
    (hopen : (isCircuitOpen timeout (PRIMARY_PROVIDERS t) now st).1 = true)
    (hq : env.quotesResult (FALLBACK_PROVIDERS t) symbols = .error e)
    (hpe : isProviderError e = true)
    (hsup : supportsAssetType (PRIMARY_PROVIDERS t) t = true)
    (hsupf : supportsAssetType (FALLBACK_PROVIDERS t) t = true)
    (ha : env.assetsResult (FALLBACK_PROVIDERS t) t = .error e2)
    (hpe2 : isProviderError e2 = true) :
    (fetchQuotesForAssetType env timeout now t symbols st).2 =
      tripCircuit (FALLBACK_PROVIDERS t) (pyErrMessage e) now
        (isCircuitOpen timeout (PRIMARY_PROVIDERS t) now st).2 ∧
    (updateAssetListForType env timeout now t st).2 =
      tripCircuit (PRIMARY_PROVIDERS t) (pyErrMessage e2) now
        (isCircuitOpen timeout (PRIMARY_PROVIDERS t) now st).2 := by
  have hsym' : symbols.isEmpty = false := by
    cases symbols
    · exact absurd rfl hsym
    · rfl
  constructor
  · simp only [fetchQuotesForAssetType, hsym', hreg, hopen, hfb, hq, hpe,
      if_true, if_false, Bool.false_eq_true, Bool.true_eq_false, ite_false,
      ite_true]
  · simp only [updateAssetListForType, hreg, hsup, hopen, hfb, hsupf, ha,
      hpe2, if_true, if_false, Bool.false_eq_true, Bool.true_eq_false,
      ite_false, ite_true]

/-- C2 witness: the amended claim instantiated with Yahoo's circuit open and
Finnhub raising `ProviderError` on both calls. -/
theorem c2_witness :
    (isCircuitOpen 300 (PRIMARY_PROVIDERS AssetType.stocks) 5
        (exStateOpen [DataProvider.yfinance])).1 = true ∧
    exEnvFallbackErr.quotesResult (FALLBACK_PROVIDERS AssetType.stocks)
        [pystr "AAPL"] = .error PyErr.providerError ∧
    (fetchQuotesForAssetType exEnvFallbackErr 300 5 AssetType.stocks
        [pystr "AAPL"] (exStateOpen [DataProvider.yfinance])).2 =
      tripCircuit (FALLBACK_PROVIDERS AssetType.stocks)
        (pyErrMessage PyErr.providerError) 5
        (isCircuitOpen 300 (PRIMARY_PROVIDERS AssetType.stocks) 5
          (exStateOpen [DataProvider.yfinance])).2 ∧
    (updateAssetListForType exEnvFallbackErr 300 5 AssetType.stocks
        (exStateOpen [DataProvider.yfinance])).2 =
      tripCircuit (PRIMARY_PROVIDERS AssetType.stocks)
        (pyErrMessage PyErr.providerError) 5
        (isCircuitOpen 300 (PRIMARY_PROVIDERS AssetType.stocks) 5
          (exStateOpen [DataProvider.yfinance])).2 :=
  ⟨by decide, rfl,
   (c2_trip_targets exEnvFallbackErr 300 5 AssetType.stocks [pystr "AAPL"]
      (exStateOpen [DataProvider.yfinance]) PyErr.providerError
      PyErr.providerError (by decide) (by decide) (by decide) (by decide) rfl
      (by decide) (by decide) (by decide) rfl (by decide)).1,
   (c2_trip_targets exEnvFallbackErr 300 5 AssetType.stocks [pystr "AAPL"]
      (exStateOpen [DataProvider.yfinance]) PyErr.providerError
      PyErr.providerError (by decide) (by decide) (by decide) (by decide) rfl
      (by decide) (by decide) (by decide) rfl (by decide)).2⟩

/-- C4 counterexample: a `RateLimitError` raised by the quote call does trip
the provider's circuit breaker, because `RateLimitError` is a subclass of
`ProviderError` and the handler catches `ProviderError`. -/
theorem c4_counterexample :
    isProviderError PyErr.rateLimitError = true ∧
    (fetchQuotesForAssetType exEnvRateLimited 300 0 AssetType.stocks
        [pystr "AAPL"] exStateClosed).2.circuits DataProvider.yfinance =
      some (.valid ⟨true, 0, [], 1⟩) ∧
    (fetchQuotesForAssetType exEnvRateLimited 300 0 AssetType.stocks
        [pystr "AAPL"] exStateClosed).2.failures DataProvider.yfinance =
      1 := by decide

/-- C4 (amended): in the quote-fetch path an error raised by the provider
call trips the used provider's circuit exactly when it is a `ProviderError`;
since `RateLimitError`, `AuthenticationError` and `DataNotFoundError`
subclass `ProviderError` in base.py, they also trip it, and only errors
outside the `ProviderError` hierarchy leave the circuit untouched. -/
theorem c4_trip_iff_provider_error {Q A N : Type} (env : AggEnv Q A N)
    (timeout now : Nat) (t : AssetType) (symbols : List PyStr)
    (st : CacheState) (e : PyErr)
    (hsym : symbols ≠ [])
    (hreg : env.registered (PRIMARY_PROVIDERS t) = true)
    (hclosed : (isCircuitOpen timeout (PRIMARY_PROVIDERS t) now st).1 = false)
    (hq : env.quotesResult (PRIMARY_PROVIDERS t) symbols = .error e) :
    (fetchQuotesForAssetType env timeout now t symbols st).2 =
      (if isProviderError e then
        tripCircuit (PRIMARY_PROVIDERS t) (pyErrMessage e) now
          (isCircuitOpen timeout (PRIMARY_PROVIDERS t) now st).2
      else (isCircuitOpen timeout (PRIMARY_PROVIDERS t) now st).2) ∧
    isProviderError PyErr.providerError = true ∧
    isProviderError PyErr.rateLimitError = true ∧
    isProviderError PyErr.authenticationError = true ∧
    isProviderError PyErr.dataNotFoundError = true ∧
    isProviderError PyErr.otherError = false := by
  have hsym' : symbols.isEmpty = false := by
    cases symbols
    · exact absurd rfl hsym
    · rfl
  refine ⟨?_, rfl, rfl, rfl, rfl, rfl⟩
  by_cases hpe : isProviderError e = true
  · simp only [fetchQuotesForAssetType, hsym', hreg, hclosed, hq, hpe,
      if_true, if_false, Bool.false_eq_true, Bool.true_eq_false, ite_false,
      ite_true]
  · rw [Bool.not_eq_true] at hpe
    simp only [fetchQuotesForAssetType, hsym', hreg, hclosed, hq, hpe,
      if_true, if_false, Bool.false_eq_true, Bool.true_eq_false, ite_false,
      ite_true]

/-- C4 witness: the amended claim instantiated with every call raising
`RateLimitError` against a closed circuit. -/
theorem c4_witness :
    ([pystr "AAPL"] ≠ ([] : List PyStr)) ∧
    (isCircuitOpen 300 (PRIMARY_PROVIDERS AssetType.stocks) 0
        exStateClosed).1 = false ∧
    (fetchQuotesForAssetType exEnvRateLimited 300 0 AssetType.stocks
        [pystr "AAPL"] exStateClosed).2 =
      (if isProviderError PyErr.rateLimitError then
        tripCircuit (PRIMARY_PROVIDERS AssetType.stocks)
          (pyErrMessage PyErr.rateLimitError) 0
          (isCircuitOpen 300 (PRIMARY_PROVIDERS AssetType.stocks) 0
            exStateClosed).2
      else (isCircuitOpen 300 (PRIMARY_PROVIDERS AssetType.stocks) 0
        exStateClosed).2) :=
  ⟨by decide, by decide,
   (c4_trip_iff_provider_error exEnvRateLimited 300 0 AssetType.stocks
      [pystr "AAPL"] exStateClosed PyErr.rateLimitError (by decide)
      (by decide) (by decide) rfl).1⟩

/-- C8: the news fallback chain never caches anything, because `CacheService`
has no `set_company_news` method. With Finnhub returning an empty list and
Yahoo returning one article for `MSFT`, the orchestrator does call Yahoo, but
the `news:MSFT` bundle stays absent — the write raises `AttributeError`,
which the handler merely logs — so the cached bundle does not equal Yahoo's
response. -/
theorem c8_news_never_cached :
    exEnvNews.finnhubNewsResult (pystr "MSFT") = .ok [] ∧
    exEnvNews.yfinanceNewsResult (pystr "MSFT") = .ok [7] ∧
    (fetchCompanyNewsForSymbol exEnvNews 300 0 (pystr "MSFT") exNewsEmpty
        exStateClosed).1 (pystr "MSFT") = none ∧
    (fetchCompanyNewsForSymbol exEnvNews 300 0 (pystr "MSFT") exNewsEmpty
        exStateClosed).1 (pystr "MSFT") ≠ some [7] :=
  ⟨rfl, rfl, rfl, by decide⟩

theorem makeRequestAux_attempts_le (oracle : Nat → HttpOutcome) :
    ∀ (fuel attempt : Nat) (sleeps : List Nat),
      (makeRequestAux oracle fuel attempt sleeps).attemptsMade ≤
        attempt + fuel := by
  intro fuel
  induction fuel with
  | zero => intro attempt sleeps; exact Nat.le_refl _
  | succ n ih =>
    intro attempt sleeps
    unfold makeRequestAux
    rcases oracle attempt with _ | _ | ⟨status, ra, j⟩ <;>
      dsimp only <;>
      split_ifs <;>
      first
        | exact le_trans (ih _ _) (by omega)
        | exact (by omega : attempt + 1 ≤ attempt + (n + 1))

theorem makeRequestAux_retry_only (oracle : Nat → HttpOutcome) :
    ∀ (fuel attempt : Nat) (sleeps : List Nat) (k : Nat), attempt ≤ k →
      k + 1 < (makeRequestAux oracle fuel attempt sleeps).attemptsMade →
      retryableOutcome (oracle k) = true := by
  intro fuel
  induction fuel with
  | zero =>
    intro attempt sleeps k hk h
    dsimp [makeRequestAux] at h
    omega
  | succ n ih =>
    intro attempt sleeps k hk h
    unfold makeRequestAux at h
    rcases ho : oracle attempt with _ | _ | ⟨status, ra, j⟩ <;>
      rw [ho] at h <;> dsimp only at h
    · split_ifs at h with hn
      · have h' : k + 1 < attempt + 1 := h
        omega
      · rcases Nat.eq_or_lt_of_le hk with rfl | hlt
        · rw [ho]; rfl
        · exact ih (attempt + 1) _ k hlt h
    · split_ifs at h with hn
      · have h' : k + 1 < attempt + 1 := h
        omega
      · rcases Nat.eq_or_lt_of_le hk with rfl | hlt
        · rw [ho]; rfl
        · exact ih (attempt + 1) _ k hlt h
    · split_ifs at h with h429 hn h401 h4xx hn2 hj
      · have h' : k + 1 < attempt + 1 := h
        omega
      · rcases Nat.eq_or_lt_of_le hk with rfl | hlt
        · rw [ho]
          simp [retryableOutcome, h429]
        · exact ih (attempt + 1) _ k hlt h
      · have h' : k + 1 < attempt + 1 := h
        omega
      · have h' : k + 1 < attempt + 1 := h
        omega
      · rcases Nat.eq_or_lt_of_le hk with rfl | hlt
        · rw [ho]
          simp only [retryableOutcome, Bool.or_eq_true, Bool.and_eq_true,
            decide_eq_true_eq]
          simp only [Bool.and_eq_true, decide_eq_true_eq] at h4xx
          right
          exact ⟨⟨h4xx.1, h4xx.2⟩, h401⟩
        · exact ih (attempt + 1) _ k hlt h
      · have h' : k + 1 < attempt + 1 := h
        omega
      · have h' : k + 1 < attempt + 1 := h
        omega

/-- C5 (amended): a provider request makes at most 3 attempts; an attempt is
retried only after a timeout, a transport error, a 429, or another 4xx/5xx
status other than 401 — in particular 4xx statuses such as 404 are retried,
contrary to the original claim; 401 raises `AuthenticationError` on the first
attempt without retry; an upstream answering 404 (or timing out) on every
attempt consumes all 3 attempts with backoff sleeps of 1s then 2s and ends in
`ProviderError`, not in an empty result. -/
theorem c5_retry_policy (oracle : Nat → HttpOutcome) :
    (makeRequest oracle).attemptsMade ≤ 3 ∧
    (∀ k, k + 1 < (makeRequest oracle).attemptsMade →
      retryableOutcome (oracle k) = true) ∧
    (∀ ra j, oracle 0 = .response 401 ra j →
      (makeRequest oracle).result = .authenticationError ∧
      (makeRequest oracle).attemptsMade = 1) ∧
    ((∀ k, oracle k = .response 404 0 true) →
      (makeRequest oracle).result = .providerError ∧
      (makeRequest oracle).attemptsMade = 3 ∧
      (makeRequest oracle).sleeps = [1, 2]) ∧
    ((∀ k, oracle k = .timeout) →
      (makeRequest oracle).result = .providerError ∧
      (makeRequest oracle).attemptsMade = 3 ∧
      (makeRequest oracle).sleeps = [1, 2]) := by
  refine ⟨makeRequestAux_attempts_le oracle 3 0 [],
    fun k hk => makeRequestAux_retry_only oracle 3 0 [] k (Nat.zero_le k) hk,
    ?_, ?_, ?_⟩
  · intro ra j h
    constructor <;> simp [makeRequest, makeRequestAux, h]
  · intro h
    refine ⟨?_, ?_, ?_⟩ <;> simp [makeRequest, makeRequestAux, h]
  · intro h
    refine ⟨?_, ?_, ?_⟩ <;> simp [makeRequest, makeRequestAux, h]

/-- C5 witness: the amended claim instantiated on the upstream that answers
404 to every attempt. -/
theorem c5_witness :
    (∀ k, exOracle404 k = HttpOutcome.response 404 0 true) ∧
    (makeRequest exOracle404).result = ReqResult.providerError ∧
    (makeRequest exOracle404).attemptsMade = 3 ∧
    (makeRequest exOracle404).sleeps = [1, 2] :=
  ⟨fun _ => rfl,
   ((c5_retry_policy exOracle404).2.2.2.1 fun _ => rfl).1,
   ((c5_retry_policy exOracle404).2.2.2.1 fun _ => rfl).2.1,
   ((c5_retry_policy exOracle404).2.2.2.1 fun _ => rfl).2.2⟩

/-- C5 counterexample: a 404 response — a 4xx other than 429 — is retried:
with every attempt answering 404, `_make_request` makes all 3 attempts
(sleeping 1s and 2s in between) and raises `ProviderError`, rather than never
retrying and returning an empty result. -/
theorem c5_counterexample :
    (makeRequest exOracle404).attemptsMade = 3 ∧
    (makeRequest exOracle404).attemptsMade ≠ 1 ∧
    (makeRequest exOracle404).result = ReqResult.providerError ∧
    (makeRequest exOracle404).result ≠ ReqResult.ok := by decide

theorem groupSymbols_foldl_eq (symbols : List PyStr) :
    ∀ (g : AssetType → List PyStr) (t : AssetType),
      (symbols.foldl
        (fun g s t => if t = assetTypeOfSymbol s then g t ++ [s] else g t)
        g) t =
        g t ++ symbols.filter (fun x => assetTypeOfSymbol x = t) := by
  induction symbols with
  | nil => intro g t; simp
  | cons s rest ih =>
    intro g t
    simp only [List.foldl_cons]
    rw [ih]
    by_cases h : assetTypeOfSymbol s = t
    · rw [if_pos h.symm]
      simp [List.filter_cons, h, List.append_assoc]
    · rw [if_neg fun hc => h hc.symm]
      simp [List.filter_cons, h]

/-- C6 counterexample: the bucketing test is substring containment, not a
prefix match — `XBTC` contains `BTC` and is bucketed as crypto although no
crypto ticker is a prefix of it. -/
theorem c6_counterexample :
    assetTypeOfSymbol (pystr "XBTC") = AssetType.crypto ∧
    specCryptoTickerMatch (pystr "XBTC") = false := by decide

/-- C6 (amended): every active symbol lands in exactly one bucket: forex when
it contains `/` or ends in `=X` (checked on the raw symbol), otherwise crypto
exactly when the uppercased symbol contains one of BTC, ETH, ADA, DOT, XRP,
LTC, DOGE as a substring (not only as a prefix), otherwise stocks; the bucket
of type `t` collects, in input order, exactly the symbols classified `t`, so
distinct buckets are disjoint. -/
theorem c6_bucketing (symbols : List PyStr) (s : PyStr) (t : AssetType) :
    (assetTypeOfSymbol s = AssetType.forex ↔
      '/' ∈ s ∨ pyEndsWith s (pystr "=X") = true) ∧
    (assetTypeOfSymbol s = AssetType.crypto ↔
      ¬('/' ∈ s ∨ pyEndsWith s (pystr "=X") = true) ∧
        ∃ c ∈ CRYPTO_TICKERS, pyContains (pyUpper s) c = true) ∧
    (assetTypeOfSymbol s = AssetType.stocks ↔
      ¬('/' ∈ s ∨ pyEndsWith s (pystr "=X") = true) ∧
        ¬∃ c ∈ CRYPTO_TICKERS, pyContains (pyUpper s) c = true) ∧
    groupSymbolsByAssetType symbols t =
      symbols.filter (fun x => assetTypeOfSymbol x = t) ∧
    (∀ t2 : AssetType, t ≠ t2 →
      ∀ x ∈ groupSymbolsByAssetType symbols t,
        x ∉ groupSymbolsByAssetType symbols t2) := by
  have hgrp : ∀ t2 : AssetType, groupSymbolsByAssetType symbols t2 =
      symbols.filter (fun x => assetTypeOfSymbol x = t2) := by
    intro t2
    unfold groupSymbolsByAssetType
    rw [groupSymbols_foldl_eq]
    simp
  refine ⟨?_, ?_, ?_, hgrp t, ?_⟩
  · unfold assetTypeOfSymbol
    split_ifs with h1 h2 <;> simp_all
  · unfold assetTypeOfSymbol
    split_ifs with h1 h2 <;> simp_all [List.any_eq_true]
  · unfold assetTypeOfSymbol
    split_ifs with h1 h2 <;> simp_all [List.any_eq_true]
  · intro t2 hne x hx1 hx2
    rw [hgrp t] at hx1
    rw [hgrp t2] at hx2
    have e1 := (List.mem_filter.mp hx1).2
    have e2 := (List.mem_filter.mp hx2).2
    simp only [decide_eq_true_eq] at e1 e2
    exact hne (e1 ▸ e2)

/-- C6 witness: the disjointness clause instantiated on `XBTC`, which lands in
the crypto bucket and is absent from the stocks bucket. -/
theorem c6_witness :
    AssetType.crypto ≠ AssetType.stocks ∧
    pystr "XBTC" ∈ groupSymbolsByAssetType [pystr "XBTC"] AssetType.crypto ∧
    pystr "XBTC" ∉ groupSymbolsByAssetType [pystr "XBTC"] AssetType.stocks :=
  ⟨by decide, by decide,
   (c6_bucketing [pystr "XBTC"] (pystr "XBTC") AssetType.crypto).2.2.2.2
     AssetType.stocks (by decide) (pystr "XBTC") (by decide)⟩

theorem pySplitOn_chars (sep : Char) :
    ∀ (l : PyStr) (piece : PyStr), piece ∈ pySplitOn sep l →
      ∀ c ∈ piece, c ∈ l := by
  intro l
  induction l with
  | nil =>
    intro piece hp c hc
    simp only [pySplitOn, List.mem_singleton] at hp
    subst hp
    simp at hc
  | cons a rest ih =>
    intro piece hp c hc
    simp only [pySplitOn] at hp
    by_cases ha : a = sep
    · rw [if_pos ha] at hp
      rcases List.mem_cons.mp hp with hp | hp
      · subst hp; simp at hc
      · exact List.mem_cons_of_mem a (ih piece hp c hc)
    · rw [if_neg ha] at hp
      cases hrec : pySplitOn sep rest with
      | nil =>
        rw [hrec] at hp
        simp only [List.mem_singleton] at hp
        subst hp
        rcases List.mem_singleton.mp hc with rfl
        exact List.mem_cons_self _ _
      | cons hd tl =>
        rw [hrec] at hp
        rcases List.mem_cons.mp hp with hp | hp
        · subst hp
          rcases List.mem_cons.mp hc with rfl | hc
          · exact List.mem_cons_self _ _
          · refine List.mem_cons_of_mem _ (ih hd ?_ c hc)
            rw [hrec]
            exact List.mem_cons_self hd tl
        · exact List.mem_cons_of_mem a
            (ih piece (by rw [hrec]; exact List.mem_cons_of_mem hd hp) c hc)

theorem pyStrip_eq_nil_iff (l : PyStr) :
    pyStrip l = [] ↔ ∀ c ∈ l, pyIsWs c = true := by
  unfold pyStrip
  rw [List.rdropWhile_eq_nil_iff]
  constructor
  · intro h c hc
    have h2 : List.takeWhile pyIsWs l ++ List.dropWhile pyIsWs l = l :=
      List.takeWhile_append_dropWhile pyIsWs l
    rw [← h2] at hc
    rcases List.mem_append.mp hc with hc | hc
    · exact List.mem_takeWhile_imp hc
    · exact h c hc
  · intro h x hx
    exact h x ((List.dropWhile_sublist pyIsWs).subset hx)

theorem parseSymbols_of_blank {symbols : PyStr}
    (h : (pyStrip symbols).isEmpty = true) : parseSymbols symbols = [] := by
  have hall : ∀ c ∈ symbols, pyIsWs c = true :=
    (pyStrip_eq_nil_iff symbols).mp (List.isEmpty_iff.mp h)
  unfold parseSymbols
  rw [List.map_eq_nil_iff, List.filter_eq_nil_iff]
  intro piece hpiece
  have hpw : ∀ c ∈ piece, pyIsWs c = true := fun c hc =>
    hall c (pySplitOn_chars ',' symbols piece hpiece c hc)
  have : pyStrip piece = [] := (pyStrip_eq_nil_iff piece).mpr hpw
  simp [this]

theorem gqc_invariant {Q : Type} (cache : PyStr → Option Q) :
    ∀ (symbols : List PyStr) (acc : List (PyStr × Q)),
      ∃ ne : List (PyStr × Q),
        List.foldl (gqcStep cache) acc symbols = acc ++ ne ∧
        List.Sublist (ne.map Prod.fst)
          (symbols.filter fun s => (cache s).isSome) ∧
        (∀ kv ∈ ne, kv.1 ∉ acc.map Prod.fst) ∧
        (ne.map Prod.fst).Nodup ∧
        (∀ s ∈ symbols, (cache s).isSome = true →
          s ∈ acc.map Prod.fst ∨ s ∈ ne.map Prod.fst) := by
  intro symbols
  induction symbols with
  | nil =>
    intro acc
    exact ⟨[], (List.append_nil acc).symm, List.nil_sublist _,
      fun kv hkv => absurd hkv (List.not_mem_nil kv), List.nodup_nil,
      fun x hx _ => absurd hx (List.not_mem_nil x)⟩
  | cons s rest ih =>
    intro acc
    rcases hc : cache s with _ | q
    · obtain ⟨ne, h1, h2, h3, h4, h5⟩ := ih acc
      refine ⟨ne, ?_, ?_, h3, h4, ?_⟩
      · simpa [gqcStep, hc] using h1
      · simpa [List.filter_cons, hc] using h2
      · intro x hx hxs
        rcases List.mem_cons.mp hx with rfl | hx
        · rw [hc] at hxs; simp at hxs
        · exact h5 x hx hxs
    · by_cases hmem : acc.any (fun kv => kv.1 = s)
      · obtain ⟨ne, h1, h2, h3, h4, h5⟩ := ih acc
        refine ⟨ne, ?_, ?_, h3, h4, ?_⟩
        · simpa [gqcStep, hc, hmem] using h1
        · rw [List.filter_cons_of_pos (by simp [hc])]
          exact h2.trans (List.sublist_cons_self s _)
        · intro x hx hxs
          rcases List.mem_cons.mp hx with rfl | hx
          · left
            obtain ⟨kv, hkv, hkvs⟩ := List.any_eq_true.mp hmem
            simp only [decide_eq_true_eq] at hkvs
            exact hkvs ▸ List.mem_map_of_mem Prod.fst hkv
          · exact h5 x hx hxs
      · obtain ⟨ne2, h1, h2, h3, h4, h5⟩ := ih (acc ++ [(s, q)])
        have hsna : s ∉ acc.map Prod.fst := by
          intro hs
          obtain ⟨kv, hkv, hkvs⟩ := List.mem_map.mp hs
          exact hmem (List.any_eq_true.mpr ⟨kv, hkv, by simp [hkvs]⟩)
        refine ⟨(s, q) :: ne2, ?_, ?_, ?_, ?_, ?_⟩
        · have hstep : List.foldl (gqcStep cache) acc (s :: rest) =
              List.foldl (gqcStep cache) (acc ++ [(s, q)]) rest := by
            simp [gqcStep, hc, hmem]
          rw [hstep, h1, List.append_assoc]
          rfl
        · rw [List.filter_cons_of_pos (by simp [hc])]
          exact List.Sublist.cons₂ s h2
        · intro kv hkv
          rcases List.mem_cons.mp hkv with rfl | hkv
          · exact hsna
          · intro hx
            refine h3 kv hkv ?_
            rw [List.map_append, List.mem_append]
            exact Or.inl hx
        · refine List.Nodup.cons ?_ h4
          intro hs
          obtain ⟨kv, hkv, hkvs⟩ := List.mem_map.mp hs
          refine h3 kv hkv ?_
          rw [List.map_append, List.mem_append]
          right
          simp [hkvs]
        · intro x hx hxs
          rcases List.mem_cons.mp hx with rfl | hx
          · right
            exact List.mem_cons_self _ _
          · rcases h5 x hx hxs with hin | hin
            · rw [List.map_append, List.mem_append] at hin
              rcases hin with hin | hin
              · exact Or.inl hin
              · right
                simp only [List.map_cons, List.mem_cons]
                left
                simpa using hin
            · right
              exact List.mem_cons_of_mem _ hin

/-- C7: `GET /v1/quotes` returns 400 when the parsed comma-separated list is
empty (blank input included) and when more than 100 parsed symbols are
requested; otherwise it answers from the cache dict, whose keys are the
uppercased symbols deduplicated while preserving input order (a sublist of
the parsed request without duplicates, containing every cached symbol), with
`total` the number of quotes returned and `cache_hit` true iff at least one
requested symbol was found — in particular an empty cache yields
`quotes = []`, `total = 0`, `cache_hit = false`. -/
theorem c7_quotes_endpoint {Q : Type} (cache : PyStr → Option Q)
    (symbols : PyStr) :
    (parseSymbols symbols = [] → getQuotesEndpoint cache symbols = .error 400) ∧
    (100 < (parseSymbols symbols).length →
      getQuotesEndpoint cache symbols = .error 400) ∧
    (parseSymbols symbols ≠ [] → (parseSymbols symbols).length ≤ 100 →
      getQuotesEndpoint cache symbols =
        .ok ⟨(getQuotesFromCacheModel cache (parseSymbols symbols)).map
              Prod.snd,
             (getQuotesFromCacheModel cache (parseSymbols symbols)).length,
             !(getQuotesFromCacheModel cache (parseSymbols symbols)).isEmpty⟩) ∧
    (∀ x ∈ parseSymbols symbols, pyUpper x = x) ∧
    ((getQuotesFromCacheModel cache (parseSymbols symbols)).map
      Prod.fst).Nodup ∧
    List.Sublist
      ((getQuotesFromCacheModel cache (parseSymbols symbols)).map Prod.fst)
      (parseSymbols symbols) ∧
    (∀ x ∈ parseSymbols symbols, (cache x).isSome = true →
      x ∈ (getQuotesFromCacheModel cache (parseSymbols symbols)).map
        Prod.fst) ∧
    ((!(getQuotesFromCacheModel cache (parseSymbols symbols)).isEmpty) = true ↔
      ∃ x ∈ parseSymbols symbols, (cache x).isSome = true) ∧
    ((∀ x, cache x = none) →
      getQuotesFromCacheModel cache (parseSymbols symbols) = []) := by
  obtain ⟨ne, h1, h2, h3, h4, h5⟩ :=
    gqc_invariant cache (parseSymbols symbols) []
  have hgq : getQuotesFromCacheModel cache (parseSymbols symbols) = ne := by
    unfold getQuotesFromCacheModel
    rw [h1]
    exact List.nil_append ne
  refine ⟨?_, ?_, ?_, ?_, ?_, ?_, ?_, ?_, ?_⟩
  · intro hp
    unfold getQuotesEndpoint
    by_cases hblank : (pyStrip symbols).isEmpty = true
    · rw [if_pos hblank]
    · rw [if_neg hblank, if_pos (List.isEmpty_iff.mpr hp)]
  · intro h100
    unfold getQuotesEndpoint
    by_cases hblank : (pyStrip symbols).isEmpty = true
    · rw [if_pos hblank]
    · rw [if_neg hblank]
      by_cases hpe : (parseSymbols symbols).isEmpty = true
      · rw [if_pos hpe]
      · rw [if_neg hpe, if_pos h100]
  · intro hne h100
    unfold getQuotesEndpoint
    have hblank : ¬(pyStrip symbols).isEmpty = true := by
      intro hb
      exact hne (parseSymbols_of_blank hb)
    rw [if_neg hblank, if_neg (by simpa using hne), if_neg (by omega)]
  · intro x hx
    unfold parseSymbols at hx
    obtain ⟨t, _, rfl⟩ := List.mem_map.mp hx
    exact pyUpper_pyUpper (pyStrip t)
  · rw [hgq]; exact h4
  · rw [hgq]
    exact h2.trans (List.filter_sublist _)
  · intro x hx hsome
    rw [hgq]
    rcases h5 x hx hsome with hin | hin
    · simp at hin
    · exact hin
  · rw [hgq]
    constructor
    · intro hne2
      have hnil : ne ≠ [] := by simpa using hne2
      rcases hn : ne with _ | ⟨kv, tl⟩
      · exact absurd hn hnil
      · have hk : kv.1 ∈ ne.map Prod.fst := by
          rw [hn]
          exact List.mem_cons_self _ _
        have hf := h2.subset hk
        have := List.mem_filter.mp hf
        exact ⟨kv.1, this.1, this.2⟩
    · rintro ⟨x, hx, hsome⟩
      rcases h5 x hx hsome with hin | hin
      · simp at hin
      · have : ne ≠ [] := by
          intro hn
          rw [hn] at hin
          simp at hin
        simpa using this
  · intro hnone
    rw [hgq]
    have hfil : (parseSymbols symbols).filter
        (fun s => (cache s).isSome) = [] :=
      List.filter_eq_nil_iff.mpr fun a _ => by simp [hnone a]
    rw [hfil] at h2
    have : ne.map Prod.fst = [] := List.sublist_nil.mp h2
    exact List.map_eq_nil_iff.mp this

/-- C7 witness: a request `aapl,AAPL,msft` against a cache holding only
`AAPL` passes validation and answers one quote with `cache_hit = true`. -/
theorem c7_witness :
    parseSymbols (pystr "aapl,AAPL,msft") ≠ [] ∧
    (parseSymbols (pystr "aapl,AAPL,msft")).length ≤ 100 ∧
    getQuotesEndpoint exQuoteCache (pystr "aapl,AAPL,msft") =
      .ok ⟨[1], 1, true⟩ :=
  ⟨by decide, by decide,
   (c7_quotes_endpoint exQuoteCache (pystr "aapl,AAPL,msft")).2.2.1
     (by decide) (by decide)⟩
